import Mathlib

/-
Verification of the GeodePy Datum Transformation Engine specification.

The repository tree available here carries only the documentation (rst
feature pages, tutorials and a notebook); the python modules
geodepy.transform, geodepy.constants and geodepy.ntv2reader are not
present.  Every definition below is therefore modelled from the
specification, pinned wherever possible by the worked numeric outputs
recorded in the documentation tutorials (docs tutorials transformtut and
timedeptranstut, and the time-dependent-transformations notebook), which
record actual program outputs.

Machine floats are modelled by exact rationals; the irrational factor
converting arc-seconds to radians (pi / 648000) is threaded through the
development as an explicit rational parameter `s2r`, and concrete
numeric statements are proved for every `s2r` inside a rational interval
enclosing pi / 648000.
-/

namespace GeodePy

/-- Cartesian coordinate triple, components in metres. -/
structure Vec3 where
  x : ℚ
  y : ℚ
  z : ℚ
deriving DecidableEq

/-- A 3 by 3 matrix of rationals, row-major fields. -/
structure Mat3 where
  a11 : ℚ
  a12 : ℚ
  a13 : ℚ
  a21 : ℚ
  a22 : ℚ
  a23 : ℚ
  a31 : ℚ
  a32 : ℚ
  a33 : ℚ
deriving DecidableEq

def Vec3.add (p q : Vec3) : Vec3 :=
  ⟨p.x + q.x, p.y + q.y, p.z + q.z⟩

def Vec3.sub (p q : Vec3) : Vec3 :=
  ⟨p.x - q.x, p.y - q.y, p.z - q.z⟩

def Vec3.smul (c : ℚ) (p : Vec3) : Vec3 :=
  ⟨c * p.x, c * p.y, c * p.z⟩

def Mat3.mulVec (m : Mat3) (p : Vec3) : Vec3 :=
  ⟨m.a11 * p.x + m.a12 * p.y + m.a13 * p.z,
   m.a21 * p.x + m.a22 * p.y + m.a23 * p.z,
   m.a31 * p.x + m.a32 * p.y + m.a33 * p.z⟩

def Mat3.mul (m n : Mat3) : Mat3 :=
  ⟨m.a11 * n.a11 + m.a12 * n.a21 + m.a13 * n.a31,
   m.a11 * n.a12 + m.a12 * n.a22 + m.a13 * n.a32,
   m.a11 * n.a13 + m.a12 * n.a23 + m.a13 * n.a33,
   m.a21 * n.a11 + m.a22 * n.a21 + m.a23 * n.a31,
   m.a21 * n.a12 + m.a22 * n.a22 + m.a23 * n.a32,
   m.a21 * n.a13 + m.a22 * n.a23 + m.a23 * n.a33,
   m.a31 * n.a11 + m.a32 * n.a21 + m.a33 * n.a31,
   m.a31 * n.a12 + m.a32 * n.a22 + m.a33 * n.a32,
   m.a31 * n.a13 + m.a32 * n.a23 + m.a33 * n.a33⟩

def Mat3.transpose (m : Mat3) : Mat3 :=
  ⟨m.a11, m.a21, m.a31, m.a12, m.a22, m.a32, m.a13, m.a23, m.a33⟩

/-- Modelled from the spec: geodepy.constants.Transformation (source file
absent from the docs-only tree).  Immutable value object holding the frame
names, the reference epoch, seven parameters (translations tx ty tz in
metres, scale sc in parts-per-million, rotations rx ry rz in arc-seconds)
and the matching seven secular rates (units per year), field names as in
the documented reprs.  Epochs are represented by a rational number of
days (proleptic Gregorian ordinal for calendar dates); the predefined
static entries use the plain number 0. -/
structure Transformation where
  from_frame : String
  to_frame : String
  ref_epoch : ℚ
  tx : ℚ
  ty : ℚ
  tz : ℚ
  sc : ℚ
  rx : ℚ
  ry : ℚ
  rz : ℚ
  d_tx : ℚ
  d_ty : ℚ
  d_tz : ℚ
  d_sc : ℚ
  d_rx : ℚ
  d_ry : ℚ
  d_rz : ℚ
deriving DecidableEq

/-- Error kinds of the engine that the claims touch. -/
inductive GeodepyError where
  | epochMismatch
deriving DecidableEq

/-- Modelled from the spec: the unary minus on Transformation
(Transformation.__neg__, used for reverse application).  Negates every
parameter and every rate, keeps the reference epoch, swaps the frames;
this matches the documented repr of the negated itrf2014_to_itrf2005
entry in the notebook tutorial. -/
def Transformation.neg (t : Transformation) : Transformation where
  from_frame := t.to_frame
  to_frame := t.from_frame
  ref_epoch := t.ref_epoch
  tx := -t.tx
  ty := -t.ty
  tz := -t.tz
  sc := -t.sc
  rx := -t.rx
  ry := -t.ry
  rz := -t.rz
  d_tx := -t.d_tx
  d_ty := -t.d_ty
  d_tz := -t.d_tz
  d_sc := -t.d_sc
  d_rx := -t.d_rx
  d_ry := -t.d_ry
  d_rz := -t.d_rz

/-- Modelled from the spec: Transformation.__add__.  When the reference
epochs match the parameters and rates are summed element-wise (the frames
compose); otherwise the addition fails with EpochMismatchError. -/
def Transformation.add (t1 t2 : Transformation) :
    Except GeodepyError Transformation :=
  if t1.ref_epoch = t2.ref_epoch then
    Except.ok
      { from_frame := t1.from_frame
        to_frame := t2.to_frame
        ref_epoch := t1.ref_epoch
        tx := t1.tx + t2.tx
        ty := t1.ty + t2.ty
        tz := t1.tz + t2.tz
        sc := t1.sc + t2.sc
        rx := t1.rx + t2.rx
        ry := t1.ry + t2.ry
        rz := t1.rz + t2.rz
        d_tx := t1.d_tx + t2.d_tx
        d_ty := t1.d_ty + t2.d_ty
        d_tz := t1.d_tz + t2.d_tz
        d_sc := t1.d_sc + t2.d_sc
        d_rx := t1.d_rx + t2.d_rx
        d_ry := t1.d_ry + t2.d_ry
        d_rz := t1.d_rz + t2.d_rz }
  else Except.error GeodepyError.epochMismatch

/-- Rotation matrix of a Transformation: identity plus the skew terms of
the three rotations (converted from arc-seconds to radians by the factor
`s2r`), in the GDA2020 Technical Manual sign convention reproduced by
the worked outputs of the documentation tutorials. -/
def rotationMatrix (t : Transformation) (s2r : ℚ) : Mat3 :=
  ⟨1, t.rz * s2r, -(t.ry * s2r),
   -(t.rz * s2r), 1, t.rx * s2r,
   t.ry * s2r, -(t.rx * s2r), 1⟩

/-- The skew (off-diagonal) part of `rotationMatrix`. -/
def skewMatrix (t : Transformation) (s2r : ℚ) : Mat3 :=
  ⟨0, t.rz * s2r, -(t.ry * s2r),
   -(t.rz * s2r), 0, t.rx * s2r,
   t.ry * s2r, -(t.rx * s2r), 0⟩

/-- Combined scale-and-rotation matrix of the static Helmert transform:
the whole rotation matrix is multiplied by the scale factor
1 + sc / 1e6 (sc held in parts-per-million). -/
def helmertMatrix (t : Transformation) (s2r : ℚ) : Mat3 :=
  let scale := 1 + t.sc / 1000000
  ⟨scale * 1, scale * (t.rz * s2r), scale * (-(t.ry * s2r)),
   scale * (-(t.rz * s2r)), scale * 1, scale * (t.rx * s2r),
   scale * (t.ry * s2r), scale * (-(t.rx * s2r)), scale * 1⟩

/-- Translation vector of a Transformation, metres. -/
def translationVec (t : Transformation) : Vec3 :=
  ⟨t.tx, t.ty, t.tz⟩

/-- Modelled from the spec: geodepy.transform.conform7 (source file
absent from the docs-only tree).  Static 7-parameter Helmert similarity
transform: output = translation + (1 + sc/1e6) * R * input, with R the
rotation matrix above; the secular-rate fields of the Transformation are
not consulted.  The parameter `s2r` stands for the arc-second to radian
conversion factor (pi / 648000 in the code).  When a variance-covariance
matrix is supplied it is propagated as J * V * transpose J with J the
combined scale-and-rotation matrix; when none is supplied the result
carries none.  The sign convention and the placement of the scale factor
are pinned by the worked outputs of the documentation tutorials (the
spec section 4.1 matrix shows the rotation terms with opposite signs and
scales only the diagonal; that variant does not reproduce the documented
outputs). -/
def conform7 (s2r : ℚ) (p : Vec3) (t : Transformation)
    (vcv : Option Mat3) : Vec3 × Option Mat3 :=
  let j := helmertMatrix t s2r
  (Vec3.add (Mat3.mulVec j p) (translationVec t),
   vcv.map (fun v => Mat3.mul (Mat3.mul j v) (Mat3.transpose j)))

/-- Effective Transformation at elapsed time `delta` (fractional years):
every parameter becomes p + rate * delta; frames, epoch and rates are
kept. -/
def atEpoch (t : Transformation) (delta : ℚ) : Transformation :=
  { t with
    tx := t.tx + t.d_tx * delta
    ty := t.ty + t.d_ty * delta
    tz := t.tz + t.d_tz * delta
    sc := t.sc + t.d_sc * delta
    rx := t.rx + t.d_rx * delta
    ry := t.ry + t.d_ry * delta
    rz := t.rz + t.d_rz * delta }

/-- Modelled from the spec: geodepy.transform.conform14 (source file
absent from the docs-only tree).  Time-dependent 14-parameter Helmert
transform: elapsed years delta = (target epoch - reference epoch), taken
as a day difference divided by the Julian year length 365.25 (this
convention reproduces the documented tutorial outputs), effective
parameters p + rate * delta, then the static form. -/
def conform14 (s2r : ℚ) (p : Vec3) (to_epoch : ℚ) (t : Transformation)
    (vcv : Option Mat3) : Vec3 × Option Mat3 :=
  conform7 s2r p (atEpoch t ((to_epoch - t.ref_epoch) / (1461 / 4))) vcv

/-- True in leap years of the proleptic Gregorian calendar. -/
def leapYear (y : ℤ) : Bool :=
  (y % 4 == 0 && y % 100 != 0) || y % 400 == 0

/-- Day count of the months preceding month `m` in a common year. -/
def daysBeforeMonth (m : ℕ) : ℤ :=
  [0, 0, 31, 59, 90, 120, 151, 181, 212, 243, 273, 304, 334].getD m 0

/-- Proleptic Gregorian ordinal of a calendar date (1 at year 1 month 1
day 1), matching the python date.toordinal used for epoch arithmetic. -/
def dateOrdinal (y : ℤ) (m d : ℕ) : ℤ :=
  365 * (y - 1) + (y - 1).fdiv 4 - (y - 1).fdiv 100 + (y - 1).fdiv 400
    + daysBeforeMonth m
    + (if leapYear y = true ∧ 2 < m then 1 else 0) + d

/-- Rational stand-in for pi used at concrete evaluations. -/
def piRat : ℚ := 3.14159265358979

/-- Rational stand-in for the arc-second to radian factor pi / 648000. -/
def sec2rad : ℚ := piRat / 648000

/-- Modelled from the spec: geodepy.constants.agd84_to_gda94, with the
values printed by the documentation tutorial on datum transformation:
reference epoch the plain number 0, all seven secular rates zero. -/
def agd84_to_gda94 : Transformation where
  from_frame := "AGD84"
  to_frame := "GDA94"
  ref_epoch := 0
  tx := -117.763
  ty := -51.51
  tz := 139.061
  sc := -0.191
  rx := -0.292
  ry := -0.443
  rz := -0.277
  d_tx := 0
  d_ty := 0
  d_tz := 0
  d_sc := 0
  d_rx := 0
  d_ry := 0
  d_rz := 0

/-- Modelled from the spec: geodepy.constants.itrf2014_to_gda2020, with
the values printed by the notebook tutorial: reference epoch 2020-01-01,
zero parameters, rotation rates only (the Australian plate motion
model). -/
def itrf2014_to_gda2020 : Transformation where
  from_frame := "ITRF2014"
  to_frame := "GDA2020"
  ref_epoch := (dateOrdinal 2020 1 1 : ℚ)
  tx := 0
  ty := 0
  tz := 0
  sc := 0
  rx := 0
  ry := 0
  rz := 0
  d_tx := 0
  d_ty := 0
  d_tz := 0
  d_sc := 0
  d_rx := 0.00150379
  d_ry := 0.00118346
  d_rz := 0.00120716

/-- Modelled from the spec: geodepy.constants.atrf2014_to_gda2020, the
plate-motion entry used by the ATRF2014 to GDA2020 conversion; same
parameters and rates as itrf2014_to_gda2020 with the ATRF2014 frame
name. -/
def atrf2014_to_gda2020 : Transformation :=
  { itrf2014_to_gda2020 with from_frame := "ATRF2014" }

/-- Modelled from the spec: geodepy.transform.transform_atrf2014_to_gda2020
(source file absent from the docs-only tree).  Applies the dynamic
Helmert form with the plate-motion entry at the epoch of the input
coordinate. -/
def transform_atrf2014_to_gda2020 (s2r : ℚ) (p : Vec3) (epoch : ℚ) :
    Vec3 × Option Mat3 :=
  conform14 s2r p epoch atrf2014_to_gda2020 none

/-- Modelled from the spec: geodepy.ntv2reader.SubGrid (source file
absent from the docs-only tree).  Bounding box, node spacing, row and
column counts, and the dense per-node latitude-shift and longitude-shift
surfaces in arc-seconds, indexed row, column with row 0 at the southern
edge and column 0 at the western edge (the per-node accuracy channels
are carried by the file but not consulted by the interpolation claims,
so they are not represented). -/
structure SubGrid where
  s_lat : ℚ
  n_lat : ℚ
  w_long : ℚ
  e_long : ℚ
  lat_inc : ℚ
  long_inc : ℚ
  num_rows : ℕ
  num_cols : ℕ
  latShift : ℤ → ℤ → ℚ
  lonShift : ℤ → ℤ → ℚ

/-- Fractional row position of a latitude inside a subgrid. -/
def gridRowPos (g : SubGrid) (lat : ℚ) : ℚ :=
  (lat - g.s_lat) / g.lat_inc

/-- Fractional column position of a longitude inside a subgrid. -/
def gridColPos (g : SubGrid) (lon : ℚ) : ℚ :=
  (lon - g.w_long) / g.long_inc

/-- Modelled from the spec: geodepy.ntv2reader.bilinear_interpolation
(source file absent from the docs-only tree).  Standard 4-node bilinear
interpolation: with u, v the fractional positions inside the enclosing
cell, the four corner nodes are averaged with weights (1-u)(1-v),
u(1-v), (1-u)v, uv; returns the latitude shift and the longitude
shift. -/
def bilinear_interpolation (g : SubGrid) (lat lon : ℚ) : ℚ × ℚ :=
  let gy := gridRowPos g lat
  let gx := gridColPos g lon
  let r : ℤ := ⌊gy⌋
  let c : ℤ := ⌊gx⌋
  let v := gy - r
  let u := gx - c
  ((1 - u) * (1 - v) * g.latShift r c + u * (1 - v) * g.latShift r (c + 1)
     + (1 - u) * v * g.latShift (r + 1) c + u * v * g.latShift (r + 1) (c + 1),
   (1 - u) * (1 - v) * g.lonShift r c + u * (1 - v) * g.lonShift r (c + 1)
     + (1 - u) * v * g.lonShift (r + 1) c + u * v * g.lonShift (r + 1) (c + 1))

/-- Margin test for the bicubic method: the 4 by 4 neighborhood of the
enclosing cell (rows r-1 .. r+2, columns c-1 .. c+2) must lie inside the
node grid, i.e. two full cells of margin on every side of the query
cell. -/
def hasBicubicMargin (g : SubGrid) (lat lon : ℚ) : Bool :=
  let r : ℤ := ⌊gridRowPos g lat⌋
  let c : ℤ := ⌊gridColPos g lon⌋
  decide (1 ≤ r) && decide (r + 2 ≤ (g.num_rows : ℤ) - 1) &&
    decide (1 ≤ c) && decide (c + 2 ≤ (g.num_cols : ℤ) - 1)

/-- Cubic convolution kernel (Keys, a = -1/2): weight of a node at
distance d from the query position. -/
def cubicConvKernel (d : ℚ) : ℚ :=
  let a := |d|
  if a ≤ 1 then (3 / 2) * a ^ 3 - (5 / 2) * a ^ 2 + 1
  else if a < 2 then (-1 / 2) * a ^ 3 + (5 / 2) * a ^ 2 - 4 * a + 2
  else 0

/-- One interpolated surface value of the 16-node cubic convolution:
rows r-1 .. r+2 and columns c-1 .. c+2 of the node surface `f`, weighted
by the kernel at the fractional offsets v and u. -/
def cubicConvSum (f : ℤ → ℤ → ℚ) (r c : ℤ) (v u : ℚ) : ℚ :=
  let wv : ℤ → ℚ := fun k => cubicConvKernel (v - k)
  let wu : ℤ → ℚ := fun k => cubicConvKernel (u - k)
  wv (-1) * (wu (-1) * f (r - 1) (c - 1) + wu 0 * f (r - 1) c
      + wu 1 * f (r - 1) (c + 1) + wu 2 * f (r - 1) (c + 2))
    + wv 0 * (wu (-1) * f r (c - 1) + wu 0 * f r c
      + wu 1 * f r (c + 1) + wu 2 * f r (c + 2))
    + wv 1 * (wu (-1) * f (r + 1) (c - 1) + wu 0 * f (r + 1) c
      + wu 1 * f (r + 1) (c + 1) + wu 2 * f (r + 1) (c + 2))
    + wv 2 * (wu (-1) * f (r + 2) (c - 1) + wu 0 * f (r + 2) c
      + wu 1 * f (r + 2) (c + 1) + wu 2 * f (r + 2) (c + 2))

/-- Modelled from the spec: geodepy.ntv2reader.bicubic_interpolation
(source file absent from the docs-only tree).  16-node cubic convolution
on the 4 by 4 neighborhood of the enclosing cell; when the two-cell
margin is unavailable on any side the query silently falls back to the
bilinear method (no error is raised). -/
def bicubic_interpolation (g : SubGrid) (lat lon : ℚ) : ℚ × ℚ :=
  if hasBicubicMargin g lat lon then
    let gy := gridRowPos g lat
    let gx := gridColPos g lon
    let r : ℤ := ⌊gy⌋
    let c : ℤ := ⌊gx⌋
    let v := gy - r
    let u := gx - c
    (cubicConvSum g.latShift r c v u, cubicConvSum g.lonShift r c v u)
  else bilinear_interpolation g lat lon

/-- The AGD84 cartesian point of the datum-transformation tutorial. -/
def agd84Point : Vec3 := ⟨-4050634.051819, 4220935.13646, -2533555.369303⟩

/-- The ATRF2014 cartesian point of the time-dependent tutorial, dated
2011-01-01. -/
def atrfScenarioPoint : Vec3 := ⟨-4050762.770917, 4220880.800229, -2533400.199554⟩

/-- The ITRF2005 cartesian point of the notebook tutorial (point Bob). -/
def bobPoint : Vec3 := ⟨-4052042.7920922847, 4212825.645301947, -2545098.301585565⟩

/-- A Transformation with a single one arc-second z rotation and no other
parameter, used to exhibit the rotation sign convention. -/
def rotOnlyT : Transformation :=
  ⟨"A", "B", 0, 0, 0, 0, 0, 0, 0, 1, 0, 0, 0, 0, 0, 0, 0⟩

/-- A small concrete 4 by 4 subgrid with unit spacing and affine shift
surfaces, for concrete interpolation evaluations. -/
def demoGrid : SubGrid where
  s_lat := 0
  n_lat := 3
  w_long := 0
  e_long := 3
  lat_inc := 1
  long_inc := 1
  num_rows := 4
  num_cols := 4
  latShift := fun r c => (r : ℚ) + 2 * (c : ℚ)
  lonShift := fun r c => (r : ℚ) - (c : ℚ)

/-- Model validation: with the rational stand-in for pi, the embedded
conform7 reproduces the AGD84 to GDA94 output printed by the datum
transformation tutorial to within 1e-5 m in the x component.  This pins
the rotation sign convention and the placement of the scale factor of
the embedding to the behavior recorded in the repository docs. -/
theorem conform7_matches_tutorial_output :
    |(conform7 sec2rad agd84Point agd84_to_gda94 none).1.x - (-4050762.150962)| ≤
      1 / 100000 := by
  norm_num [conform7, helmertMatrix, translationVec, Mat3.mulVec, Vec3.add,
    agd84_to_gda94, agd84Point, sec2rad, piRat, abs_le]

/-- Model validation: the embedded conform14 reproduces the notebook
tutorial output of the plate-motion step (point Bob moved with
itrf2014_to_gda2020 to epoch 2030-01-01) to within 1e-5 m in the x
component.  This pins the day-difference / 365.25 epoch convention of
the embedding to the behavior recorded in the repository docs. -/
theorem conform14_matches_notebook_output :
    |(conform14 sec2rad bobPoint ((dateOrdinal 2030 1 1 : ℤ) : ℚ)
        itrf2014_to_gda2020 none).1.x - (-4052042.399457001)| ≤ 1 / 100000 := by
  have d1 : dateOrdinal 2030 1 1 = 741078 := by decide
  have d2 : dateOrdinal 2020 1 1 = 737425 := by decide
  norm_num [conform14, conform7, atEpoch, helmertMatrix, translationVec,
    Mat3.mulVec, Vec3.add, itrf2014_to_gda2020, bobPoint, sec2rad, piRat,
    d1, d2, abs_le]

/-- C1 counterexample: at the one arc-second z-rotation transformation
and the point (0, 1000000, 0), conform7 does not return the x value
demanded by the claimed component formula
x = (1 + sc/1e6) x - rz s2r y + ry s2r z + tx: the code applies the
rotation terms with the opposite sign (and scales them by 1 + sc/1e6),
per the GDA2020 Technical Manual convention that reproduces the
documented tutorial outputs. -/
theorem conform7_spec_matrix_cex :
    (conform7 sec2rad ⟨0, 1000000, 0⟩ rotOnlyT none).1.x ≠
      (1 + rotOnlyT.sc / 1000000) * (0 : ℚ) - rotOnlyT.rz * sec2rad * 1000000
        + rotOnlyT.ry * sec2rad * 0 + rotOnlyT.tx := by
  norm_num [conform7, helmertMatrix, Mat3.mulVec, Vec3.add, translationVec,
    rotOnlyT, sec2rad, piRat]

/-- C1 (amended): for every cartesian triple, every Transformation and
every arc-second-to-radian factor s2r, the static Helmert application
returns
x = tx + (1 + sc/1e6) (x + rz s2r y - ry s2r z),
y = ty + (1 + sc/1e6) (-(rz s2r) x + y + rx s2r z),
z = tz + (1 + sc/1e6) (ry s2r x - rx s2r y + z),
and the secular-rate fields are not used even when present. -/
theorem conform7_formula (s2r : ℚ) (p : Vec3) (t : Transformation) :
    (conform7 s2r p t none).1 =
      ⟨t.tx + (1 + t.sc / 1000000) * (p.x + t.rz * s2r * p.y - t.ry * s2r * p.z),
       t.ty + (1 + t.sc / 1000000) * (-(t.rz * s2r) * p.x + p.y + t.rx * s2r * p.z),
       t.tz + (1 + t.sc / 1000000) * (t.ry * s2r * p.x - t.rx * s2r * p.y + p.z)⟩ ∧
    ∀ a b c d e f g : ℚ,
      (conform7 s2r p
        { t with d_tx := a, d_ty := b, d_tz := c, d_sc := d,
                 d_rx := e, d_ry := f, d_rz := g } none).1 =
        (conform7 s2r p t none).1 := by
  constructor
  · simp only [conform7, helmertMatrix, Mat3.mulVec, Vec3.add, translationVec,
      Vec3.mk.injEq]
    refine ⟨by ring, by ring, by ring⟩
  · intro a b c d e f g
    rfl

/-- C2: negating a Transformation negates the seven parameters and the
seven secular rates, keeps the reference epoch and swaps the two frame
names. -/
theorem neg_transformation_spec (t : Transformation) :
    (Transformation.neg t).tx = -t.tx ∧ (Transformation.neg t).ty = -t.ty ∧
    (Transformation.neg t).tz = -t.tz ∧ (Transformation.neg t).sc = -t.sc ∧
    (Transformation.neg t).rx = -t.rx ∧ (Transformation.neg t).ry = -t.ry ∧
    (Transformation.neg t).rz = -t.rz ∧
    (Transformation.neg t).d_tx = -t.d_tx ∧ (Transformation.neg t).d_ty = -t.d_ty ∧
    (Transformation.neg t).d_tz = -t.d_tz ∧ (Transformation.neg t).d_sc = -t.d_sc ∧
    (Transformation.neg t).d_rx = -t.d_rx ∧ (Transformation.neg t).d_ry = -t.d_ry ∧
    (Transformation.neg t).d_rz = -t.d_rz ∧
    (Transformation.neg t).ref_epoch = t.ref_epoch ∧
    (Transformation.neg t).from_frame = t.to_frame ∧
    (Transformation.neg t).to_frame = t.from_frame :=
  ⟨rfl, rfl, rfl, rfl, rfl, rfl, rfl, rfl, rfl, rfl, rfl, rfl, rfl, rfl, rfl,
   rfl, rfl⟩

/-- C3 counterexample: for the predefined agd84_to_gda94 Transformation
and the AGD84 tutorial point, applying the static Helmert transform and
then applying it with the negated Transformation does not return the
point within 1e-6 m in each component (the x component alone is off by
more than 4e-4 m). -/
theorem roundtrip_tolerance_cex :
    ¬ (|(conform7 sec2rad (conform7 sec2rad agd84Point agd84_to_gda94 none).1
            (Transformation.neg agd84_to_gda94) none).1.x - agd84Point.x| ≤
          1 / 1000000 ∧
       |(conform7 sec2rad (conform7 sec2rad agd84Point agd84_to_gda94 none).1
            (Transformation.neg agd84_to_gda94) none).1.y - agd84Point.y| ≤
          1 / 1000000 ∧
       |(conform7 sec2rad (conform7 sec2rad agd84Point agd84_to_gda94 none).1
            (Transformation.neg agd84_to_gda94) none).1.z - agd84Point.z| ≤
          1 / 1000000) := by
  intro h
  have h1 := (abs_le.mp h.1).1
  norm_num [conform7, helmertMatrix, Mat3.mulVec, Vec3.add, translationVec,
    Transformation.neg, agd84_to_gda94, agd84Point, sec2rad, piRat] at h1

/-- C3 (amended): the static-then-negated-static round trip is the
identity only up to an exact second-order residual: for every
Transformation T and point P the round trip returns
(1 - s^2) (P - C^2 P) - s t - (1 - s) C t   added to nothing else,
where s = sc/1e6, C is the skew rotation matrix and t the translation
vector of T; the residual is second order in the parameters and is not
bounded by 1e-6 m in general. -/
theorem helmert_roundtrip_residual (s2r : ℚ) (t : Transformation) (p : Vec3) :
    (conform7 s2r (conform7 s2r p t none).1 (Transformation.neg t) none).1 =
      Vec3.add
        (Vec3.add
          (Vec3.smul (1 - (t.sc / 1000000) ^ 2)
            (Vec3.sub p
              (Mat3.mulVec (Mat3.mul (skewMatrix t s2r) (skewMatrix t s2r)) p)))
          (Vec3.smul (-(t.sc / 1000000)) (translationVec t)))
        (Vec3.smul (t.sc / 1000000 - 1)
          (Mat3.mulVec (skewMatrix t s2r) (translationVec t))) := by
  simp only [conform7, helmertMatrix, Mat3.mulVec, Mat3.mul, Vec3.add, Vec3.sub,
    Vec3.smul, translationVec, skewMatrix, Transformation.neg, Vec3.mk.injEq]
  refine ⟨by ring, by ring, by ring⟩

/-- C4: the dynamic Helmert application at a target epoch equal to the
reference epoch of the Transformation returns the same coordinates as
the static application: the elapsed time is zero and the effective
parameters reduce to the parameters themselves. -/
theorem conform14_at_ref_epoch (s2r : ℚ) (p : Vec3) (t : Transformation)
    (vcv : Option Mat3) :
    (conform14 s2r p t.ref_epoch t vcv).1 = (conform7 s2r p t vcv).1 := by
  have h : atEpoch t ((t.ref_epoch - t.ref_epoch) / (1461 / 4)) = t := by
    simp [atEpoch]
  rw [conform14, h]

/-- C5: transforming the documented ATRF2014 cartesian point dated
2011-01-01 through the plate-motion conversion yields the documented
GDA2020 coordinate within 1e-3 m in each component, for every rational
value of the arc-second-to-radian factor inside an interval enclosing
pi / 648000. -/
theorem atrf2014_to_gda2020_scenario (s : ℚ)
    (hlo : 3.14159265358979 / 648000 ≤ s) (hhi : s ≤ 3.14159265358980 / 648000) :
    |(transform_atrf2014_to_gda2020 s atrfScenarioPoint
        ((dateOrdinal 2011 1 1 : ℤ) : ℚ)).1.x - (-4050763.124034)| ≤ 1 / 1000 ∧
    |(transform_atrf2014_to_gda2020 s atrfScenarioPoint
        ((dateOrdinal 2011 1 1 : ℤ) : ℚ)).1.y - 4220880.753100| ≤ 1 / 1000 ∧
    |(transform_atrf2014_to_gda2020 s atrfScenarioPoint
        ((dateOrdinal 2011 1 1 : ℤ) : ℚ)).1.z - (-2533399.713463)| ≤ 1 / 1000 := by
  have d1 : dateOrdinal 2011 1 1 = 734138 := by decide
  have d2 : dateOrdinal 2020 1 1 = 737425 := by decide
  refine ⟨?_, ?_, ?_⟩ <;>
    rw [abs_le] <;>
    constructor <;>
    · simp only [transform_atrf2014_to_gda2020, conform14, conform7, atEpoch,
        helmertMatrix, Mat3.mulVec, Vec3.add, translationVec,
        atrf2014_to_gda2020, itrf2014_to_gda2020, atrfScenarioPoint, d1, d2]
      norm_num
      linarith

/-- C5 witness: the scenario bound instantiated at the concrete rational
stand-in for pi / 648000. -/
theorem atrf2014_to_gda2020_scenario_witness :
    |(transform_atrf2014_to_gda2020 sec2rad atrfScenarioPoint
        ((dateOrdinal 2011 1 1 : ℤ) : ℚ)).1.x - (-4050763.124034)| ≤ 1 / 1000 ∧
    |(transform_atrf2014_to_gda2020 sec2rad atrfScenarioPoint
        ((dateOrdinal 2011 1 1 : ℤ) : ℚ)).1.y - 4220880.753100| ≤ 1 / 1000 ∧
    |(transform_atrf2014_to_gda2020 sec2rad atrfScenarioPoint
        ((dateOrdinal 2011 1 1 : ℤ) : ℚ)).1.z - (-2533399.713463)| ≤ 1 / 1000 :=
  atrf2014_to_gda2020_scenario sec2rad (by norm_num [sec2rad, piRat])
    (by norm_num [sec2rad, piRat])

/-- C6: adding two Transformations sums the seven parameters and the
seven rates element-wise when the reference epochs agree, and fails with
EpochMismatchError when they differ. -/
theorem add_transformation_spec (t1 t2 : Transformation) :
    (t1.ref_epoch = t2.ref_epoch →
      Transformation.add t1 t2 = Except.ok
        { from_frame := t1.from_frame, to_frame := t2.to_frame,
          ref_epoch := t1.ref_epoch,
          tx := t1.tx + t2.tx, ty := t1.ty + t2.ty, tz := t1.tz + t2.tz,
          sc := t1.sc + t2.sc,
          rx := t1.rx + t2.rx, ry := t1.ry + t2.ry, rz := t1.rz + t2.rz,
          d_tx := t1.d_tx + t2.d_tx, d_ty := t1.d_ty + t2.d_ty,
          d_tz := t1.d_tz + t2.d_tz, d_sc := t1.d_sc + t2.d_sc,
          d_rx := t1.d_rx + t2.d_rx, d_ry := t1.d_ry + t2.d_ry,
          d_rz := t1.d_rz + t2.d_rz }) ∧
    (t1.ref_epoch ≠ t2.ref_epoch →
      Transformation.add t1 t2 = Except.error GeodepyError.epochMismatch) := by
  constructor <;> intro h <;> simp [Transformation.add, h]

/-- C6 witness: agd84_to_gda94 added to itself (matching epochs, summed
parameters) and agd84_to_gda94 added to itrf2014_to_gda2020 (differing
epochs, EpochMismatchError). -/
theorem add_transformation_spec_witness :
    Transformation.add agd84_to_gda94 agd84_to_gda94 = Except.ok
      { from_frame := "AGD84", to_frame := "GDA94", ref_epoch := 0,
        tx := -235.526, ty := -103.02, tz := 278.122, sc := -0.382,
        rx := -0.584, ry := -0.886, rz := -0.554,
        d_tx := 0, d_ty := 0, d_tz := 0, d_sc := 0,
        d_rx := 0, d_ry := 0, d_rz := 0 } ∧
    Transformation.add agd84_to_gda94 itrf2014_to_gda2020 =
      Except.error GeodepyError.epochMismatch := by
  constructor
  · rw [(add_transformation_spec agd84_to_gda94 agd84_to_gda94).1 rfl]
    norm_num [agd84_to_gda94, Transformation.mk.injEq]
  · exact (add_transformation_spec agd84_to_gda94 itrf2014_to_gda2020).2 (by decide)

/-- C7: whenever the query point lacks the two-cell margin needed by the
4 by 4 bicubic neighborhood, bicubic interpolation returns exactly the
bilinear interpolation result for that point (it never fails; and being
a pure function of the subgrid and the query point, the fallback is
deterministic). -/
theorem bicubic_margin_fallback (g : SubGrid) (lat lon : ℚ)
    (h : hasBicubicMargin g lat lon = false) :
    bicubic_interpolation g lat lon = bilinear_interpolation g lat lon := by
  simp [bicubic_interpolation, h]

/-- C7 witness: on the demo subgrid the query (1/2, 1/2) sits in the
south-west cell, the margin test fails, and the bicubic result equals
the bilinear result. -/
theorem bicubic_margin_fallback_witness :
    bicubic_interpolation demoGrid (1 / 2) (1 / 2) =
      bilinear_interpolation demoGrid (1 / 2) (1 / 2) :=
  bicubic_margin_fallback demoGrid (1 / 2) (1 / 2)
    (by norm_num [hasBicubicMargin, gridRowPos, gridColPos, demoGrid])

lemma cubicConvKernel_zero : cubicConvKernel 0 = 1 := by
  norm_num [cubicConvKernel]

lemma cubicConvKernel_one : cubicConvKernel 1 = 0 := by
  norm_num [cubicConvKernel]

lemma cubicConvKernel_negOne : cubicConvKernel (-1) = 0 := by
  norm_num [cubicConvKernel, abs_neg]

lemma cubicConvKernel_negTwo : cubicConvKernel (-2) = 0 := by
  norm_num [cubicConvKernel, abs_neg]

/-- At zero fractional offsets the 16-node cubic convolution collapses
to the central node value: the kernel weighs the node itself 1 and its
neighbors at distances 1 and 2 zero. -/
lemma cubicConvSum_at_node (f : ℤ → ℤ → ℚ) (r c : ℤ) :
    cubicConvSum f r c 0 0 = f r c := by
  simp only [cubicConvSum]
  norm_num [cubicConvKernel_zero, cubicConvKernel_one, cubicConvKernel_negOne,
    cubicConvKernel_negTwo]

/-- C8: for a query point exactly on a grid node (integral grid
coordinates, with nonzero node spacings) both interpolation methods
return exactly the stored shift values of that node. -/
theorem interpolation_exact_at_node (g : SubGrid) (i j : ℤ) (lat lon : ℚ)
    (hlat : lat = g.s_lat + i * g.lat_inc) (hlon : lon = g.w_long + j * g.long_inc)
    (hli : g.lat_inc ≠ 0) (hlo : g.long_inc ≠ 0) :
    bilinear_interpolation g lat lon = (g.latShift i j, g.lonShift i j) ∧
    bicubic_interpolation g lat lon = (g.latShift i j, g.lonShift i j) := by
  have hgy : gridRowPos g lat = (i : ℚ) := by
    rw [hlat, gridRowPos]
    field_simp
  have hgx : gridColPos g lon = (j : ℚ) := by
    rw [hlon, gridColPos]
    field_simp
  have hbl : bilinear_interpolation g lat lon = (g.latShift i j, g.lonShift i j) := by
    simp [bilinear_interpolation, hgy, hgx, Int.floor_intCast]
  refine ⟨hbl, ?_⟩
  by_cases hm : hasBicubicMargin g lat lon
  · simp [bicubic_interpolation, hm, hgy, hgx, Int.floor_intCast, cubicConvSum_at_node]
  · simp only [Bool.not_eq_true] at hm
    rw [bicubic_interpolation, if_neg (by simp [hm])]
    exact hbl

/-- C8 witness: the node (row 1, column 2) of the demo subgrid, at
latitude 1 and longitude 2, where both methods return the stored shifts
(5, -1). -/
theorem interpolation_exact_at_node_witness :
    bilinear_interpolation demoGrid 1 2 = (5, -1) ∧
    bicubic_interpolation demoGrid 1 2 = (5, -1) := by
  have h := interpolation_exact_at_node demoGrid 1 2 1 2
    (by norm_num [demoGrid]) (by norm_num [demoGrid])
    (by norm_num [demoGrid]) (by norm_num [demoGrid])
  norm_num [demoGrid] at h
  exact h

/-- C9: the static Helmert application returns no propagated
variance-covariance matrix when none is supplied, and returns
J V (transpose J) with J the combined scale-and-rotation matrix when a
matrix V is supplied. -/
theorem conform7_vcv_rule (s2r : ℚ) (p : Vec3) (t : Transformation) :
    (conform7 s2r p t none).2 = none ∧
    ∀ v : Mat3, (conform7 s2r p t (some v)).2 =
      some (Mat3.mul (Mat3.mul (helmertMatrix t s2r) v)
        (Mat3.transpose (helmertMatrix t s2r))) :=
  ⟨rfl, fun _ => rfl⟩

/-- C10: the predefined agd84_to_gda94 entry has reference epoch the
plain number 0 and all seven secular rates zero, so the dynamic
application agrees with the static application at every target epoch. -/
theorem agd84_to_gda94_static_dynamic (s2r : ℚ) (p : Vec3) (e : ℚ)
    (vcv : Option Mat3) :
    agd84_to_gda94.ref_epoch = 0 ∧
    (agd84_to_gda94.d_tx = 0 ∧ agd84_to_gda94.d_ty = 0 ∧
     agd84_to_gda94.d_tz = 0 ∧ agd84_to_gda94.d_sc = 0 ∧
     agd84_to_gda94.d_rx = 0 ∧ agd84_to_gda94.d_ry = 0 ∧
     agd84_to_gda94.d_rz = 0) ∧
    (conform14 s2r p e agd84_to_gda94 vcv).1 = (conform7 s2r p agd84_to_gda94 vcv).1 := by
  refine ⟨rfl, ⟨rfl, rfl, rfl, rfl, rfl, rfl, rfl⟩, ?_⟩
  have h : atEpoch agd84_to_gda94 ((e - agd84_to_gda94.ref_epoch) / (1461 / 4)) =
      agd84_to_gda94 := by
    simp [atEpoch, agd84_to_gda94]
  rw [conform14, h]

end GeodePy
